import Mathlib

/-!
Shallow embedding of the flask-specializations-api repository
(src/db.py, src/schemas.py, src/resources/specialization.py,
src/resources/course_item.py, src/resources/user.py).

The three SQLAlchemy tables become lists of records; each HTTP handler
becomes a function returning the response (or the `abort`ed error) together
with the store after the request, so that frame conditions are statable.
External collaborators are parameters: `uuid.uuid4().hex` and the
autoincrement user id are passed in as the fresh identifier, passlib's
`pbkdf2_sha256.hash` / `pbkdf2_sha256.verify` and flask-jwt-extended's
`create_access_token` are function parameters, and `@jwt_required()` is a
boolean gate (`auth = true` iff a valid bearer token accompanies the
request).
-/

/-- `UserModel` of src/db.py: integer primary key, unique username,
hashed password string. -/
structure UserModel where
  id : Nat
  username : String
  password : String
deriving Repr, DecidableEq

/-- `SpecializationModel` of src/db.py: string primary key (a uuid hex),
unique name. -/
structure SpecializationModel where
  id : String
  name : String
deriving Repr, DecidableEq

/-- `CourseItemModel` of src/db.py: string primary key, name, type, and a
foreign key `specialization_id` into the specializations table. -/
structure CourseItemModel where
  id : String
  name : String
  type : String
  specialization_id : String
deriving Repr, DecidableEq

/-- The relational store: the three tables `users`, `specializations` and
`course_items` declared in src/db.py. -/
structure Store where
  users : List UserModel
  specializations : List SpecializationModel
  course_items : List CourseItemModel
deriving Repr, DecidableEq

/-- The integrity constraints declared in src/db.py: the three primary keys,
the two `unique=True` columns (users.username, specializations.name), and
the foreign key course_items.specialization_id into specializations.id. -/
def Store.WF (s : Store) : Prop :=
  (s.users.map (fun u => u.id)).Nodup ∧
  (s.users.map (fun u => u.username)).Nodup ∧
  (s.specializations.map (fun t => t.id)).Nodup ∧
  (s.specializations.map (fun t => t.name)).Nodup ∧
  (s.course_items.map (fun c => c.id)).Nodup ∧
  (∀ c ∈ s.course_items, ∃ t ∈ s.specializations, t.id = c.specialization_id)

instance (s : Store) : Decidable s.WF := by
  unfold Store.WF; infer_instance

/-- An aborted request: HTTP status code and message, as produced by
`flask_smorest.abort` / `get_or_404` in the resource files. -/
structure ApiError where
  status : Nat
  message : String
deriving Repr, DecidableEq

/-- The spec's `NotFound` error class: unknown identifier, status 404. -/
def ApiError.NotFound (e : ApiError) : Prop := e.status = 404

/-- The spec's `Conflict` error class: a uniqueness violation; the spec's
interface table lists both 400 and 409 as the duplicate status codes this
service uses (409 for users, 400 for specializations and course items). -/
def ApiError.Conflict (e : ApiError) : Prop := e.status = 400 ∨ e.status = 409

/-- The spec's `Unauthorized` error class: bad login or missing/invalid
bearer credential, status 401. -/
def ApiError.Unauthorized (e : ApiError) : Prop := e.status = 401

/-- The spec's `ValidationError` class: malformed/missing required input
fields, rejected by marshmallow and surfaced by flask-smorest as 422. -/
def ApiError.ValidationFailure (e : ApiError) : Prop := e.status = 422

/-- The error produced by `get_or_404` on a missing row. -/
def err404 : ApiError := ⟨404, "Not Found"⟩

/-- The error produced by `@jwt_required()` when no valid bearer token
accompanies the request. -/
def errJwt : ApiError := ⟨401, "Missing Authorization Header"⟩

/-- The error produced by flask-smorest when marshmallow load fails. -/
def errValidation : ApiError := ⟨422, "Unprocessable Entity"⟩

/-- A body accepted by `SpecializationSchema.load`: only `name` is loadable
(`id` and `course_items` are dump_only in src/schemas.py). -/
structure SpecializationLoad where
  name : String
deriving Repr, DecidableEq

/-- A body accepted by `CourseItemSchema.load`: `name`, `type` and
`specialization_id` are all `required=True` in src/schemas.py. -/
structure CourseItemLoad where
  name : String
  type : String
  specialization_id : String
deriving Repr, DecidableEq

/-- A body accepted by `CourseItemUpdateSchema.load` (src/schemas.py): all
three fields are optional. -/
structure CourseItemUpdateLoad where
  name : Option String
  type : Option String
  specialization_id : Option String
deriving Repr, DecidableEq

/-- Primary-key lookup `SpecializationModel.query.get(id)`. -/
def Store.specById (s : Store) (id : String) : Option SpecializationModel :=
  s.specializations.find? (fun t => t.id == id)

/-- Primary-key lookup `CourseItemModel.query.get(id)`. -/
def Store.itemById (s : Store) (id : String) : Option CourseItemModel :=
  s.course_items.find? (fun c => c.id == id)

/-- `UserModel.query.filter_by(username=...).first()`. -/
def Store.userByName (s : Store) (username : String) : Option UserModel :=
  s.users.find? (fun u => u.username == username)

/-- Primary-key lookup `UserModel.query.get(id)`. -/
def Store.userById (s : Store) (id : Nat) : Option UserModel :=
  s.users.find? (fun u => u.id == id)

/-- `Specialization.get` (src/resources/specialization.py, lines 14-17):
`get_or_404`, then return the row; no session mutation. -/
def Specialization.get (s : Store) (specialization_id : String) :
    Except ApiError SpecializationModel × Store :=
  match s.specById specialization_id with
  | none => (Except.error err404, s)
  | some sp => (Except.ok sp, s)

/-- `Specialization.put` (src/resources/specialization.py, lines 19-29):
`@jwt_required()`, `get_or_404`, overwrite `name` unconditionally, commit. -/
def Specialization.put (auth : Bool) (s : Store) (specialization_id : String)
    (specialization_data : SpecializationLoad) :
    Except ApiError SpecializationModel × Store :=
  if auth then
    match s.specById specialization_id with
    | none => (Except.error err404, s)
    | some sp =>
      let sp' : SpecializationModel := ⟨sp.id, specialization_data.name⟩
      (Except.ok sp',
        { s with specializations :=
            s.specializations.map (fun t => if t.id == specialization_id then sp' else t) })
  else (Except.error errJwt, s)

/-- `Specialization.delete` (src/resources/specialization.py, lines 31-37):
`@jwt_required()`, `get_or_404`, `db.session.delete` + commit; the
`all, delete-orphan` cascade declared on `SpecializationModel.course_items`
in src/db.py removes every course item referencing the row in the same
transaction. -/
def Specialization.delete (auth : Bool) (s : Store) (specialization_id : String) :
    Except ApiError String × Store :=
  if auth then
    match s.specById specialization_id with
    | none => (Except.error err404, s)
    | some _ =>
      (Except.ok "Specialization deleted.",
        { s with
            specializations := s.specializations.filter (fun t => !(t.id == specialization_id)),
            course_items := s.course_items.filter (fun c => !(c.specialization_id == specialization_id)) })
  else (Except.error errJwt, s)

/-- `SpecializationList.get` (src/resources/specialization.py, lines 42-44). -/
def SpecializationList.get (s : Store) :
    Except ApiError (List SpecializationModel) × Store :=
  (Except.ok s.specializations, s)

/-- `SpecializationList.post` (src/resources/specialization.py, lines 46-62):
`@jwt_required()`; a duplicate name aborts with
`400, "Specialization already exists."`; otherwise insert a row whose id is
the fresh `uuid.uuid4().hex`, passed here as `newId`. -/
def SpecializationList.post (auth : Bool) (newId : String) (s : Store)
    (specialization_data : SpecializationLoad) :
    Except ApiError SpecializationModel × Store :=
  if auth then
    if (s.specializations.find? (fun t => t.name == specialization_data.name)).isSome then
      (Except.error ⟨400, "Specialization already exists."⟩, s)
    else
      (Except.ok ⟨newId, specialization_data.name⟩,
        { s with specializations := s.specializations ++ [⟨newId, specialization_data.name⟩] })
  else (Except.error errJwt, s)

/-- `Course_Item.get` (src/resources/course_item.py, lines 13-16). -/
def Course_Item.get (s : Store) (course_item_id : String) :
    Except ApiError CourseItemModel × Store :=
  match s.itemById course_item_id with
  | none => (Except.error err404, s)
  | some c => (Except.ok c, s)

/-- `Course_Item.delete` (src/resources/course_item.py, lines 18-22). -/
def Course_Item.delete (s : Store) (course_item_id : String) :
    Except ApiError String × Store :=
  match s.itemById course_item_id with
  | none => (Except.error err404, s)
  | some _ =>
    (Except.ok "Course_item deleted.",
      { s with course_items := s.course_items.filter (fun c => !(c.id == course_item_id)) })

/-- `Course_Item.put` (src/resources/course_item.py, lines 24-34):
`get_or_404`, then each field is taken from the payload when supplied
(`course_item_data.get(field, current)`), commit. -/
def Course_Item.put (s : Store) (course_item_id : String)
    (course_item_data : CourseItemUpdateLoad) :
    Except ApiError CourseItemModel × Store :=
  match s.itemById course_item_id with
  | none => (Except.error err404, s)
  | some c =>
    let c' : CourseItemModel :=
      ⟨c.id, course_item_data.name.getD c.name, course_item_data.type.getD c.type,
        course_item_data.specialization_id.getD c.specialization_id⟩
    (Except.ok c',
      { s with course_items :=
          s.course_items.map (fun t => if t.id == course_item_id then c' else t) })

/-- `Course_ItemList.get` (src/resources/course_item.py, lines 40-42). -/
def Course_ItemList.get (s : Store) :
    Except ApiError (List CourseItemModel) × Store :=
  (Except.ok s.course_items, s)

/-- `Course_ItemList.post` (src/resources/course_item.py, lines 44-67):
abort `404, "Specialization not found."` when the referenced specialization
is absent; abort `400, "Course_Item already exists."` when an item with the
same (name, specialization_id) pair exists; otherwise insert with the fresh
uuid `newId`. -/
def Course_ItemList.post (newId : String) (s : Store)
    (course_item_data : CourseItemLoad) :
    Except ApiError CourseItemModel × Store :=
  match s.specById course_item_data.specialization_id with
  | none => (Except.error ⟨404, "Specialization not found."⟩, s)
  | some _ =>
    if (s.course_items.find? (fun c =>
        c.name == course_item_data.name &&
        c.specialization_id == course_item_data.specialization_id)).isSome then
      (Except.error ⟨400, "Course_Item already exists."⟩, s)
    else
      (Except.ok ⟨newId, course_item_data.name, course_item_data.type,
          course_item_data.specialization_id⟩,
        { s with course_items := s.course_items ++
            [⟨newId, course_item_data.name, course_item_data.type,
              course_item_data.specialization_id⟩] })

/-- `UserSchema` of src/schemas.py dumps only `id` and `username`; the
schema has no password field, so the public view is a record without one. -/
structure UserPublic where
  id : Nat
  username : String
deriving Repr, DecidableEq

/-- Serialization through `UserSchema`: keeps id and username only. -/
def UserSchema.dump (u : UserModel) : UserPublic := ⟨u.id, u.username⟩

/-- `UserRegister.post` (src/resources/user.py, lines 14-31): abort
`409, "Username already exists."` when the username is taken; otherwise
insert a user whose stored password is `pbkdf2_sha256.hash(password)`.
The autoincrement primary key is the parameter `newId` and the external
hash function the parameter `hash`. -/
def UserRegister.post (hash : String → String) (newId : Nat) (s : Store)
    (username password : String) : Except ApiError UserPublic × Store :=
  if (s.userByName username).isSome then
    (Except.error ⟨409, "Username already exists."⟩, s)
  else
    (Except.ok (UserSchema.dump ⟨newId, username, hash password⟩),
      { s with users := s.users ++ [⟨newId, username, hash password⟩] })

/-- The login response body (src/resources/user.py, line 45). -/
structure LoginResponse where
  access_token : String
  user_id : Nat
  username : String
deriving Repr, DecidableEq

/-- `UserLogin.post` (src/resources/user.py, lines 34-47): find the user by
username; when present and `pbkdf2_sha256.verify(password, user.password)`
holds, return `create_access_token(identity=str(user.id))` plus id and
username; otherwise abort `401, "Invalid username or password."`. -/
def UserLogin.post (verify : String → String → Bool)
    (create_access_token : String → String) (s : Store)
    (username password : String) : Except ApiError LoginResponse × Store :=
  match s.userByName username with
  | some user =>
    if verify password user.password then
      (Except.ok ⟨create_access_token (toString user.id), user.id, user.username⟩, s)
    else (Except.error ⟨401, "Invalid username or password."⟩, s)
  | none => (Except.error ⟨401, "Invalid username or password."⟩, s)

/-- `UserProfile.get` (src/resources/user.py, lines 50-59): `@jwt_required()`
then `get_or_404(int(get_jwt_identity()))`; the authenticated identity is
the parameter `user_id`, valid iff `auth`. -/
def UserProfile.get (auth : Bool) (user_id : Nat) (s : Store) :
    Except ApiError UserPublic × Store :=
  if auth then
    match s.userById user_id with
    | none => (Except.error err404, s)
    | some u => (Except.ok (UserSchema.dump u), s)
  else (Except.error errJwt, s)

/-- A raw JSON body for the specialization endpoints before validation: the
one loadable field may be present or absent. -/
structure RawSpecializationBody where
  name : Option String
deriving Repr, DecidableEq

/-- `SpecializationSchema.load`: `name` is `required=True` in
`PlainSpecializationSchema` (src/schemas.py, lines 9-11), so a body missing
it is rejected as a marshmallow ValidationError (422). -/
def SpecializationSchema.load (body : RawSpecializationBody) :
    Except ApiError SpecializationLoad :=
  match body.name with
  | none => Except.error errValidation
  | some n => Except.ok ⟨n⟩

/-- The full PUT /specialization/{id} pipeline: `@blp.arguments` validation
runs before the wrapped handler (and hence before `@jwt_required()` and any
registry code). -/
def Specialization.putEndpoint (auth : Bool) (s : Store)
    (specialization_id : String) (body : RawSpecializationBody) :
    Except ApiError SpecializationModel × Store :=
  match SpecializationSchema.load body with
  | Except.error e => (Except.error e, s)
  | Except.ok d => Specialization.put auth s specialization_id d

/-- The full POST /specialization pipeline: validation first, then the
handler. -/
def SpecializationList.postEndpoint (auth : Bool) (newId : String) (s : Store)
    (body : RawSpecializationBody) :
    Except ApiError SpecializationModel × Store :=
  match SpecializationSchema.load body with
  | Except.error e => (Except.error e, s)
  | Except.ok d => SpecializationList.post auth newId s d

/-! ### Helper lemmas and a concrete demonstration store -/

/-- `find?` returns exactly the member `a` when `a` satisfies the predicate
and is the only member of the list that does. -/
theorem find_first_of_unique {α} (p : α → Bool) (l : List α) :
    ∀ a : α, a ∈ l → p a = true → (∀ b ∈ l, p b = true → b = a) →
    l.find? p = some a := by
  induction l with
  | nil => intro a ha _ _; cases ha
  | cons x xs ih =>
    intro a ha hpa huniq
    by_cases hx : p x = true
    · rw [List.find?_cons_of_pos xs hx]
      exact congrArg some (huniq x (List.mem_cons_self x xs) hx)
    · rw [List.find?_cons_of_neg xs hx]
      rcases List.mem_cons.mp ha with h | h
      · exact absurd (h ▸ hpa) hx
      · exact ih a h hpa fun b hb hpb => huniq b (List.mem_cons_of_mem x hb) hpb

/-- `find?` over a filtered list fails when the filter refutes the search
predicate on every survivor. -/
theorem find_filter_none {α} (p q : α → Bool) (l : List α)
    (h : ∀ b ∈ l, q b = true → p b = false) : (l.filter q).find? p = none := by
  apply List.find?_eq_none.mpr
  intro x hx hpx
  rcases List.mem_filter.mp hx with ⟨hxl, hq⟩
  rw [h x hxl hq] at hpx
  cases hpx

/-- A sample registered user (stored password is a hash image, see
`demoHash`). -/
def demoUser : UserModel := ⟨1, "alice", "pbkdf2:alicepw"⟩

/-- A sample specialization. -/
def spec1 : SpecializationModel := ⟨"s1", "Data Science"⟩

/-- A second sample specialization. -/
def spec2 : SpecializationModel := ⟨"s2", "Business"⟩

/-- A course item owned by `spec1`. -/
def item1 : CourseItemModel := ⟨"c1", "Intro", "course", "s1"⟩

/-- A course item owned by `spec2`. -/
def item2 : CourseItemModel := ⟨"c2", "Capstone", "project", "s2"⟩

/-- A small well-formed store used to instantiate the theorems. -/
def demoStore : Store := ⟨[demoUser], [spec1, spec2], [item1, item2]⟩

/-- A stand-in for the external `pbkdf2_sha256.hash`. -/
def demoHash : String → String := fun p => String.append "pbkdf2:" p

/-- A stand-in for the external `pbkdf2_sha256.verify`, consistent with
`demoHash`. -/
def demoVerify : String → String → Bool := fun p h => h == String.append "pbkdf2:" p

/-- A stand-in for the external `create_access_token`. -/
def demoToken : String → String := fun sub => String.append "tok." sub

/-! ### The claims -/

/-- C4: for every name and type, creating a course item whose
`specialization_id` references no existing specialization fails with
NotFound and leaves the store unchanged; neither the name/type values nor
the contents of the course-item table (hence no duplicate check) affect this
outcome, since the store `s` and the fields are universally quantified. -/
theorem C4_create_item_missing_spec (s : Store) (newId n ty sid : String)
    (h : ∀ t ∈ s.specializations, t.id ≠ sid) :
    ∃ e, Course_ItemList.post newId s ⟨n, ty, sid⟩ = (Except.error e, s) ∧
      e.NotFound := by
  have hfind : s.specById sid = none := by
    apply List.find?_eq_none.mpr
    intro t ht hpt
    exact h t ht (by simpa using hpt)
  refine ⟨⟨404, "Specialization not found."⟩, ?_, rfl⟩
  simp [Course_ItemList.post, hfind]

/-- Witness for C4 at the demonstration store with an unused id. -/
theorem C4_create_item_missing_spec_witness :
    ∃ e, Course_ItemList.post "c9" demoStore ⟨"Intro", "course", "zzz"⟩ =
      (Except.error e, demoStore) ∧ e.NotFound :=
  C4_create_item_missing_spec demoStore "c9" "Intro" "course" "zzz" (by decide)

/-- C9: every read endpoint — get/list on specializations, get/list on
course items, and the authenticated profile lookup — returns the store it
was given, whether it succeeds or fails. -/
theorem C9_reads_leave_store_unchanged (s : Store) (sid cid : String)
    (auth : Bool) (uid : Nat) :
    (Specialization.get s sid).2 = s ∧
    (SpecializationList.get s).2 = s ∧
    (Course_Item.get s cid).2 = s ∧
    (Course_ItemList.get s).2 = s ∧
    (UserProfile.get auth uid s).2 = s := by
  refine ⟨?_, rfl, ?_, rfl, ?_⟩
  · unfold Specialization.get
    cases s.specById sid <;> rfl
  · unfold Course_Item.get
    cases s.itemById cid <;> rfl
  · unfold UserProfile.get
    cases auth
    · rfl
    · simp only [if_true]
      cases s.userById uid <;> rfl

/-- C10: a specialization update or create body lacking the required `name`
field is rejected by schema validation with a ValidationError before the
registry runs, leaving the store unchanged — for every store, so in
particular when the targeted id exists. -/
theorem C10_missing_name_rejected (auth : Bool) (s : Store) (id newId : String)
    (body : RawSpecializationBody) (h : body.name = none) :
    (∃ e, Specialization.putEndpoint auth s id body = (Except.error e, s) ∧
      e.ValidationFailure) ∧
    (∃ e, SpecializationList.postEndpoint auth newId s body = (Except.error e, s) ∧
      e.ValidationFailure) := by
  constructor
  · exact ⟨errValidation, by simp [Specialization.putEndpoint, SpecializationSchema.load, h], rfl⟩
  · exact ⟨errValidation, by simp [SpecializationList.postEndpoint, SpecializationSchema.load, h], rfl⟩

/-- Witness for C10 at the demonstration store, targeting the existing id
`"s1"` with an authenticated request whose body lacks `name`. -/
theorem C10_missing_name_rejected_witness :
    spec1 ∈ demoStore.specializations ∧
    ∃ e, Specialization.putEndpoint true demoStore "s1" ⟨none⟩ =
      (Except.error e, demoStore) ∧ e.ValidationFailure :=
  ⟨by decide, (C10_missing_name_rejected true demoStore "s1" "s9" ⟨none⟩ rfl).1⟩

/-- C1: deleting a specialization present in the store succeeds in a single
transition that removes its row together with every course item referencing
it; afterwards a get on the specialization id and on each of those item ids
fails with NotFound, while course items of other specializations are
unchanged (and the users table is untouched). -/
theorem C1_delete_spec_cascades (s : Store) (sp : SpecializationModel)
    (hw : s.WF) (hsp : sp ∈ s.specializations) :
    ∃ s' : Store,
      Specialization.delete true s sp.id = (Except.ok "Specialization deleted.", s') ∧
      (∃ e, (Specialization.get s' sp.id).1 = Except.error e ∧ e.NotFound) ∧
      (∀ c ∈ s.course_items, c.specialization_id = sp.id →
        ∃ e, (Course_Item.get s' c.id).1 = Except.error e ∧ e.NotFound) ∧
      (∀ c : CourseItemModel, c.specialization_id ≠ sp.id →
        (c ∈ s'.course_items ↔ c ∈ s.course_items)) ∧
      s'.users = s.users := by
  obtain ⟨t, ht⟩ : ∃ t, s.specById sp.id = some t := by
    rw [← Option.isSome_iff_exists]
    exact List.find?_isSome.mpr ⟨sp, hsp, by simp⟩
  refine ⟨⟨s.users,
      s.specializations.filter (fun t => !(t.id == sp.id)),
      s.course_items.filter (fun c => !(c.specialization_id == sp.id))⟩,
    by simp [Specialization.delete, ht], ?_, ?_, ?_, rfl⟩
  · refine ⟨err404, ?_, rfl⟩
    have hnone :
        (Store.mk s.users
          (s.specializations.filter (fun t => !(t.id == sp.id)))
          (s.course_items.filter (fun c => !(c.specialization_id == sp.id)))).specById sp.id
          = none := by
      unfold Store.specById
      apply find_filter_none
      intro b _ hq
      simpa using hq
    simp [Specialization.get, hnone]
  · intro c hc hcs
    refine ⟨err404, ?_, rfl⟩
    have hnone :
        (Store.mk s.users
          (s.specializations.filter (fun t => !(t.id == sp.id)))
          (s.course_items.filter (fun c => !(c.specialization_id == sp.id)))).itemById c.id
          = none := by
      unfold Store.itemById
      apply List.find?_eq_none.mpr
      intro b hb hpb
      rcases List.mem_filter.mp hb with ⟨hbl, hbq⟩
      have hbc : b = c :=
        List.inj_on_of_nodup_map hw.2.2.2.2.1 hbl hc (by simpa using hpb)
      rw [hbc, hcs] at hbq
      simp at hbq
    simp [Course_Item.get, hnone]
  · intro c hcs
    simp [List.mem_filter, hcs]

/-- Witness for C1: deleting `spec1` from the demonstration store makes both
the specialization and its item `item1` unreachable. -/
theorem C1_delete_spec_cascades_witness :
    ∃ s', Specialization.delete true demoStore spec1.id =
        (Except.ok "Specialization deleted.", s') ∧
      (∃ e, (Specialization.get s' spec1.id).1 = Except.error e ∧ e.NotFound) ∧
      (∃ e, (Course_Item.get s' item1.id).1 = Except.error e ∧ e.NotFound) := by
  obtain ⟨s', h1, h2, h3, _⟩ :=
    C1_delete_spec_cascades demoStore spec1 (by decide) (by decide)
  exact ⟨s', h1, h2, h3 item1 (by decide) rfl⟩

/-- C2: an authenticated create of a specialization whose name is already
taken fails with Conflict and leaves the store unchanged; with a name not
yet taken it succeeds, the new row carrying the freshly generated
identifier. -/
theorem C2_create_spec_name_unique (s : Store) (newId n : String) :
    ((∃ t ∈ s.specializations, t.name = n) →
      ∃ e, SpecializationList.post true newId s ⟨n⟩ = (Except.error e, s) ∧
        e.Conflict) ∧
    ((∀ t ∈ s.specializations, t.name ≠ n) →
      SpecializationList.post true newId s ⟨n⟩ =
        (Except.ok ⟨newId, n⟩,
          { s with specializations := s.specializations ++ [⟨newId, n⟩] })) := by
  constructor
  · rintro ⟨t, ht, hn⟩
    have hdup : (s.specializations.find? (fun t => t.name == n)).isSome :=
      List.find?_isSome.mpr ⟨t, ht, by simp [hn]⟩
    exact ⟨⟨400, "Specialization already exists."⟩,
      by simp [SpecializationList.post, hdup], Or.inl rfl⟩
  · intro h
    have hnone : s.specializations.find? (fun t => t.name == n) = none :=
      List.find?_eq_none.mpr fun t ht => by simpa using h t ht
    simp [SpecializationList.post, hnone]

/-- Witness for C2: re-creating "Data Science" conflicts; creating
"Robotics" succeeds with the fresh id. -/
theorem C2_create_spec_name_unique_witness :
    (∃ e, SpecializationList.post true "s9" demoStore ⟨"Data Science"⟩ =
      (Except.error e, demoStore) ∧ e.Conflict) ∧
    SpecializationList.post true "s9" demoStore ⟨"Robotics"⟩ =
      (Except.ok ⟨"s9", "Robotics"⟩,
        { demoStore with
            specializations := demoStore.specializations ++ [⟨"s9", "Robotics"⟩] }) :=
  ⟨(C2_create_spec_name_unique demoStore "s9" "Data Science").1
      ⟨spec1, by decide, by decide⟩,
   (C2_create_spec_name_unique demoStore "s9" "Robotics").2 (by decide)⟩

/-- C3: creating a course item whose (name, specialization_id) pair equals
that of an existing item fails with Conflict and leaves the store unchanged
(the referenced specialization exists by foreign-key integrity); creating an
item with the same name under a different, existing specialization — the
pair being fresh there — succeeds. -/
theorem C3_item_pair_unique (s : Store) (newId n ty sid : String) (hw : s.WF) :
    ((∃ c ∈ s.course_items, c.name = n ∧ c.specialization_id = sid) →
      ∃ e, Course_ItemList.post newId s ⟨n, ty, sid⟩ = (Except.error e, s) ∧
        e.Conflict) ∧
    ((∃ c ∈ s.course_items, c.name = n ∧ c.specialization_id ≠ sid) →
     (∃ t ∈ s.specializations, t.id = sid) →
     (∀ c ∈ s.course_items, c.name = n → c.specialization_id ≠ sid) →
      Course_ItemList.post newId s ⟨n, ty, sid⟩ =
        (Except.ok ⟨newId, n, ty, sid⟩,
          { s with course_items := s.course_items ++ [⟨newId, n, ty, sid⟩] })) := by
  constructor
  · rintro ⟨c, hc, hn, hs⟩
    obtain ⟨t, ht, htid⟩ := hw.2.2.2.2.2 c hc
    obtain ⟨t', ht'⟩ : ∃ t', s.specById sid = some t' := by
      rw [← Option.isSome_iff_exists]
      exact List.find?_isSome.mpr ⟨t, ht, by simp [htid, hs]⟩
    have hdup : (s.course_items.find? (fun c =>
        c.name == n && c.specialization_id == sid)).isSome :=
      List.find?_isSome.mpr ⟨c, hc, by simp [hn, hs]⟩
    exact ⟨⟨400, "Course_Item already exists."⟩,
      by simp [Course_ItemList.post, ht', hdup], Or.inl rfl⟩
  · rintro - ⟨t, ht, htid⟩ hfresh
    obtain ⟨t', ht'⟩ : ∃ t', s.specById sid = some t' := by
      rw [← Option.isSome_iff_exists]
      exact List.find?_isSome.mpr ⟨t, ht, by simp [htid]⟩
    have hnone : s.course_items.find? (fun c =>
        c.name == n && c.specialization_id == sid) = none := by
      apply List.find?_eq_none.mpr
      intro c hc hp
      simp only [Bool.and_eq_true, beq_iff_eq] at hp
      exact hfresh c hc hp.1 hp.2
    simp [Course_ItemList.post, ht', hnone]

/-- Witness for C3: duplicating ("Intro", "s1") conflicts; "Intro" under the
other specialization "s2" succeeds. -/
theorem C3_item_pair_unique_witness :
    (∃ e, Course_ItemList.post "c9" demoStore ⟨"Intro", "course", "s1"⟩ =
      (Except.error e, demoStore) ∧ e.Conflict) ∧
    Course_ItemList.post "c9" demoStore ⟨"Intro", "lab", "s2"⟩ =
      (Except.ok ⟨"c9", "Intro", "lab", "s2"⟩,
        { demoStore with
            course_items := demoStore.course_items ++ [⟨"c9", "Intro", "lab", "s2"⟩] }) :=
  ⟨(C3_item_pair_unique demoStore "c9" "Intro" "course" "s1" (by decide)).1
      ⟨item1, by decide, by decide, by decide⟩,
   (C3_item_pair_unique demoStore "c9" "Intro" "lab" "s2" (by decide)).2
      ⟨item1, by decide, by decide, by decide⟩ ⟨spec2, by decide, by decide⟩
      (by decide)⟩

/-- C5: register fails with Conflict when the username already exists,
leaving the store unchanged; otherwise it persists a user whose stored
password is the (salted, one-way, external) hash image of the input —
never the input itself unless the hash fixes it — and returns the public
view; `UserSchema.dump` is insensitive to the password column, so the view
carries no password field. -/
theorem C5_register_hashes_password (hash : String → String) (newId : Nat)
    (s : Store) (username password : String) :
    ((∃ u ∈ s.users, u.username = username) →
      ∃ e, UserRegister.post hash newId s username password =
        (Except.error e, s) ∧ e.Conflict) ∧
    ((∀ u ∈ s.users, u.username ≠ username) →
      UserRegister.post hash newId s username password =
        (Except.ok ⟨newId, username⟩,
          { s with users := s.users ++ [⟨newId, username, hash password⟩] })) ∧
    (∀ u : UserModel, ∀ pw, UserSchema.dump { u with password := pw } =
      UserSchema.dump u) := by
  refine ⟨?_, ?_, fun u pw => rfl⟩
  · rintro ⟨u, hu, hn⟩
    have hdup : (s.userByName username).isSome := by
      unfold Store.userByName
      exact List.find?_isSome.mpr ⟨u, hu, by simp [hn]⟩
    exact ⟨⟨409, "Username already exists."⟩,
      by simp [UserRegister.post, hdup], Or.inr rfl⟩
  · intro h
    have hnone : s.userByName username = none := by
      unfold Store.userByName
      exact List.find?_eq_none.mpr fun u hu => by simpa using h u hu
    simp [UserRegister.post, hnone, UserSchema.dump]

/-- Witness for C5: re-registering "alice" conflicts; registering "bob"
stores the hash image of the password. -/
theorem C5_register_hashes_password_witness :
    (∃ e, UserRegister.post demoHash 2 demoStore "alice" "pw" =
      (Except.error e, demoStore) ∧ e.Conflict) ∧
    UserRegister.post demoHash 2 demoStore "bob" "pw" =
      (Except.ok ⟨2, "bob"⟩,
        { demoStore with users := demoStore.users ++ [⟨2, "bob", demoHash "pw"⟩] }) :=
  ⟨(C5_register_hashes_password demoHash 2 demoStore "alice" "pw").1
      ⟨demoUser, by decide, by decide⟩,
   ((C5_register_hashes_password demoHash 2 demoStore "bob" "pw").2).1 (by decide)⟩

/-- C6: login with an unknown username, or with a password that does not
verify against the stored credential, fails with Unauthorized and leaves the
store unchanged; with correct credentials it returns the token issued on the
user's id, plus the user's id and username, also leaving the store
unchanged. -/
theorem C6_login_checks_credentials (verify : String → String → Bool)
    (tok : String → String) (s : Store) (username password : String)
    (hw : s.WF) :
    ((∀ u ∈ s.users, u.username ≠ username) →
      ∃ e, UserLogin.post verify tok s username password =
        (Except.error e, s) ∧ e.Unauthorized) ∧
    (∀ u ∈ s.users, u.username = username →
      (verify password u.password = false →
        ∃ e, UserLogin.post verify tok s username password =
          (Except.error e, s) ∧ e.Unauthorized) ∧
      (verify password u.password = true →
        UserLogin.post verify tok s username password =
          (Except.ok ⟨tok (toString u.id), u.id, u.username⟩, s))) := by
  constructor
  · intro h
    have hnone : s.userByName username = none := by
      unfold Store.userByName
      exact List.find?_eq_none.mpr fun u hu => by simpa using h u hu
    exact ⟨⟨401, "Invalid username or password."⟩,
      by simp [UserLogin.post, hnone], rfl⟩
  · intro u hu hname
    have hfind : s.userByName username = some u := by
      unfold Store.userByName
      apply find_first_of_unique _ _ u hu (by simp [hname])
      intro b hb hpb
      refine List.inj_on_of_nodup_map hw.2.1 hb hu ?_
      simp only [beq_iff_eq] at hpb
      rw [hpb, hname]
    constructor
    · intro hv
      exact ⟨⟨401, "Invalid username or password."⟩,
        by simp [UserLogin.post, hfind, hv], rfl⟩
    · intro hv
      simp [UserLogin.post, hfind, hv]

/-- Witness for C6: unknown user "carol" and a wrong password for "alice"
are Unauthorized; the correct password logs "alice" in. -/
theorem C6_login_checks_credentials_witness :
    (∃ e, UserLogin.post demoVerify demoToken demoStore "carol" "x" =
      (Except.error e, demoStore) ∧ e.Unauthorized) ∧
    (∃ e, UserLogin.post demoVerify demoToken demoStore "alice" "wrong" =
      (Except.error e, demoStore) ∧ e.Unauthorized) ∧
    UserLogin.post demoVerify demoToken demoStore "alice" "alicepw" =
      (Except.ok ⟨demoToken (toString demoUser.id), demoUser.id, demoUser.username⟩,
        demoStore) := by
  refine ⟨?_, ?_, ?_⟩
  · exact (C6_login_checks_credentials demoVerify demoToken demoStore "carol" "x"
      (by decide)).1 (by decide)
  · exact ((C6_login_checks_credentials demoVerify demoToken demoStore "alice" "wrong"
      (by decide)).2 demoUser (by decide) rfl).1 (by decide)
  · exact ((C6_login_checks_credentials demoVerify demoToken demoStore "alice" "alicepw"
      (by decide)).2 demoUser (by decide) rfl).2 (by decide)

/-- C7: updating an existing course item overwrites exactly the supplied
fields of the payload; each unsupplied field — name, type,
specialization_id — keeps its prior value, the id is preserved, the updated
row is stored, other rows survive, and the other two tables are untouched. -/
theorem C7_item_update_is_pointwise (s : Store) (c : CourseItemModel)
    (d : CourseItemUpdateLoad) (hw : s.WF) (hc : c ∈ s.course_items) :
    ∃ c' s',
      Course_Item.put s c.id d = (Except.ok c', s') ∧
      c'.id = c.id ∧
      (∀ v, d.name = some v → c'.name = v) ∧
      (d.name = none → c'.name = c.name) ∧
      (∀ v, d.type = some v → c'.type = v) ∧
      (d.type = none → c'.type = c.type) ∧
      (∀ v, d.specialization_id = some v → c'.specialization_id = v) ∧
      (d.specialization_id = none → c'.specialization_id = c.specialization_id) ∧
      c' ∈ s'.course_items ∧
      (∀ t ∈ s.course_items, t.id ≠ c.id → t ∈ s'.course_items) ∧
      s'.users = s.users ∧ s'.specializations = s.specializations := by
  have hfind : s.itemById c.id = some c := by
    unfold Store.itemById
    apply find_first_of_unique _ _ c hc (by simp)
    intro b hb hpb
    exact List.inj_on_of_nodup_map hw.2.2.2.2.1 hb hc (by simpa using hpb)
  refine ⟨⟨c.id, d.name.getD c.name, d.type.getD c.type,
      d.specialization_id.getD c.specialization_id⟩,
    ⟨s.users, s.specializations,
      s.course_items.map (fun t => if t.id == c.id then
        ⟨c.id, d.name.getD c.name, d.type.getD c.type,
          d.specialization_id.getD c.specialization_id⟩ else t)⟩,
    by simp [Course_Item.put, hfind], rfl,
    fun v hv => by simp [hv], fun hv => by simp [hv],
    fun v hv => by simp [hv], fun hv => by simp [hv],
    fun v hv => by simp [hv], fun hv => by simp [hv],
    ?_, ?_, rfl, rfl⟩
  · exact List.mem_map.mpr ⟨c, hc, by simp⟩
  · intro t ht htne
    exact List.mem_map.mpr ⟨t, ht, by simp [htne]⟩

/-- Witness for C7: supplying only `type` changes `type` alone on `item1`. -/
theorem C7_item_update_is_pointwise_witness :
    ∃ c' s', Course_Item.put demoStore item1.id ⟨none, some "lab", none⟩ =
        (Except.ok c', s') ∧
      c'.name = "Intro" ∧ c'.type = "lab" ∧ c'.specialization_id = "s1" := by
  obtain ⟨c', s', heq, -, -, hnN, htS, -, -, hsN, -, -, -, -⟩ :=
    C7_item_update_is_pointwise demoStore item1 ⟨none, some "lab", none⟩
      (by decide) (by decide)
  exact ⟨c', s', heq, hnN rfl, htS "lab" rfl, hsN rfl⟩

/-- C8: an authenticated specialization update fails with NotFound on an
unknown id, leaving the store unchanged; on a known id it overwrites the
name unconditionally — `n` is arbitrary, so in particular a name already
taken by another specialization — preserving the row's id, every other
specialization, and the other two tables. -/
theorem C8_update_spec_unconditional (s : Store) (id n : String) (hw : s.WF) :
    ((∀ t ∈ s.specializations, t.id ≠ id) →
      ∃ e, Specialization.put true s id ⟨n⟩ = (Except.error e, s) ∧ e.NotFound) ∧
    (∀ sp ∈ s.specializations, sp.id = id →
      ∃ s' : Store,
        Specialization.put true s id ⟨n⟩ = (Except.ok ⟨id, n⟩, s') ∧
        SpecializationModel.mk id n ∈ s'.specializations ∧
        (∀ t ∈ s.specializations, t.id ≠ id → t ∈ s'.specializations) ∧
        (∀ t ∈ s'.specializations, t = ⟨id, n⟩ ∨ t ∈ s.specializations) ∧
        s'.users = s.users ∧ s'.course_items = s.course_items) := by
  constructor
  · intro h
    have hnone : s.specById id = none := by
      unfold Store.specById
      exact List.find?_eq_none.mpr fun t ht => by simpa using h t ht
    exact ⟨err404, by simp [Specialization.put, hnone], rfl⟩
  · intro sp hsp hid
    have hfind : s.specById id = some sp := by
      unfold Store.specById
      apply find_first_of_unique _ _ sp hsp (by simp [hid])
      intro b hb hpb
      refine List.inj_on_of_nodup_map hw.2.2.1 hb hsp ?_
      simp only [beq_iff_eq] at hpb
      rw [hpb, hid]
    refine ⟨⟨s.users,
        s.specializations.map (fun t => if t.id == id then ⟨id, n⟩ else t),
        s.course_items⟩,
      by simp [Specialization.put, hfind, hid], ?_, ?_, ?_, rfl, rfl⟩
    · exact List.mem_map.mpr ⟨sp, hsp, by simp [hid]⟩
    · intro t ht htne
      exact List.mem_map.mpr ⟨t, ht, by simp [htne]⟩
    · intro t ht
      rcases List.mem_map.mp ht with ⟨t0, ht0, heq⟩
      by_cases h0 : t0.id = id
      · left; rw [← heq]; simp [h0]
      · right; rw [← heq]; simpa [h0] using ht0

/-- Witness for C8: updating the unknown id "zzz" is NotFound; renaming
"s1" to "Business" — a name already taken by `spec2` — succeeds. -/
theorem C8_update_spec_unconditional_witness :
    (∃ e, Specialization.put true demoStore "zzz" ⟨"X"⟩ =
      (Except.error e, demoStore) ∧ e.NotFound) ∧
    ∃ s', Specialization.put true demoStore "s1" ⟨"Business"⟩ =
        (Except.ok ⟨"s1", "Business"⟩, s') ∧
      SpecializationModel.mk "s1" "Business" ∈ s'.specializations ∧
      s'.course_items = demoStore.course_items := by
  constructor
  · exact (C8_update_spec_unconditional demoStore "zzz" "X" (by decide)).1 (by decide)
  · obtain ⟨s', h1, h2, -, -, -, h3⟩ :=
      (C8_update_spec_unconditional demoStore "s1" "Business" (by decide)).2
        spec1 (by decide) rfl
    exact ⟨s', h1, h2, h3⟩
